import Mathlib

/-!
Shallow embedding of `mcp_sheets_server.py`, an MCP server exposing Google
Sheets / Forms / Drive operations.  External collaborators (the identity
provider, the three remote services, the local token file) are modelled as
explicit parameters and state; each embedded tool returns the trace of remote
requests it issued together with its outcome (a text payload, or the Python
exception that propagates).
-/

namespace GSheets

/-- An error returned by a remote service call (`HttpError` from the Google
client); the embedded tools never inspect it, they only propagate it. -/
structure RemoteError where
  msg : String
deriving DecidableEq

/-- Python exceptions that can escape the embedded functions: a propagated
remote error, the `AttributeError` from calling `.get` on `None`, and the
`pickle` deserialization failure on a corrupted token file. -/
inductive PyErr where
  | remote (e : RemoteError)
  | attributeError
  | unpicklingError
deriving DecidableEq

/- ===== Credential manager (`get_credentials`) ===== -/

/-- A `google.oauth2.credentials.Credentials` object as `get_credentials`
observes it: the access token, the expiry flag at the time of the call, and
the optional refresh token. -/
structure Cred where
  token : Option String
  expired : Bool
  refreshToken : Option String
deriving DecidableEq

/-- The `valid` property of the Google credentials class:
`self.token is not None and not self.expired`. -/
def Cred.valid (c : Cred) : Bool :=
  c.token.isSome && !c.expired

/-- The on-disk `token.pickle` file: absent, present but undeserializable
(`pickle.load` raises), or holding a pickled credential. -/
inductive TokenFile where
  | absent
  | corrupted
  | stored (c : Cred)
deriving DecidableEq

/-- The external collaborators of `get_credentials`: the identity provider's
refresh exchange (`creds.refresh(Request())`) and the interactive consent flow
(`InstalledAppFlow...run_local_server`). -/
structure AuthEnv where
  refreshFn : Cred → Cred
  consentCred : Cred

/-- Observable side effects of one `get_credentials` call, in order. -/
inductive CredEvent where
  | refreshCall
  | consentFlow
  | persist (c : Cred)
deriving DecidableEq

/-- `get_credentials()`: load the pickled credential if the token file exists
(a corrupted file makes `pickle.load` raise, and nothing catches it); if there
is no credential or it is not valid, either refresh (when expired with a
refresh token present) or run the consent flow, then pickle the result back to
the token file; return the credential.  The result carries the returned
credential, the token file afterwards, and the ordered event trace. -/
def get_credentials (env : AuthEnv) (file : TokenFile) :
    Except PyErr (Cred × TokenFile × List CredEvent) :=
  match file with
  | TokenFile.corrupted => Except.error PyErr.unpicklingError
  | TokenFile.absent =>
    let c := env.consentCred
    Except.ok (c, TokenFile.stored c, [CredEvent.consentFlow, CredEvent.persist c])
  | TokenFile.stored c =>
    if !c.valid then
      if c.expired && c.refreshToken.isSome then
        let c2 := env.refreshFn c
        Except.ok (c2, TokenFile.stored c2, [CredEvent.refreshCall, CredEvent.persist c2])
      else
        let c2 := env.consentCred
        Except.ok (c2, TokenFile.stored c2, [CredEvent.consentFlow, CredEvent.persist c2])
    else
      Except.ok (c, TokenFile.stored c, [])

/- ===== Cell values and Python/JSON rendering ===== -/

/-- A scalar cell value as delivered by the Sheets API JSON. -/
inductive Value where
  | str (s : String)
  | int (n : Int)
  | boolean (b : Bool)
deriving DecidableEq

/-- Python `str()` of a cell value. -/
def Value.pyStr : Value → String
  | Value.str s => s
  | Value.int n => toString n
  | Value.boolean b => cond b "True" "False"

/-- JSON string escaping as `json.dumps` performs it for the characters that
occur in this development. -/
def jsonEscapeChar (c : Char) : String :=
  if c = '"' then "\\\""
  else if c = '\\' then "\\\\"
  else if c = '\n' then "\\n"
  else if c = '\t' then "\\t"
  else if c = '\r' then "\\r"
  else String.singleton c

def jsonEscape (s : String) : String :=
  String.join (s.toList.map jsonEscapeChar)

def jsonStr (s : String) : String :=
  "\"" ++ jsonEscape s ++ "\""

/-- JSON rendering of one scalar. -/
def jsonValue : Value → String
  | Value.str s => jsonStr s
  | Value.int n => toString n
  | Value.boolean b => cond b "true" "false"

def jsonOfOptStr : Option String → String
  | none => "null"
  | some s => jsonStr s

/-- Python f-string interpolation of a `dict.get` result that may be `None`. -/
def pyOptNat : Option Nat → String
  | none => "None"
  | some n => toString n

/-- One row under `json.dumps(..., indent=2)`, with `ind` the indentation of
its closing bracket. -/
def dumpsRow (ind : String) (row : List Value) : String :=
  match row with
  | [] => "[]"
  | _ =>
    "[\n" ++ String.intercalate ",\n" (row.map (fun v => ind ++ "  " ++ jsonValue v))
      ++ "\n" ++ ind ++ "]"

/-- `json.dumps(values, indent=2)` for a row-major grid. -/
def json_dumps_grid (g : List (List Value)) : String :=
  match g with
  | [] => "[]"
  | _ =>
    "[\n" ++ String.intercalate ",\n" (g.map (fun r => "  " ++ dumpsRow "  " r)) ++ "\n]"

/-- One entry of the `list_spreadsheets` result. -/
structure SheetEntry where
  name : String
  id : String
  url : String
deriving DecidableEq

/-- One `{'name':…,'id':…,'url':…}` dict under `json.dumps(..., indent=2)`. -/
def dumpsEntry (ind : String) (e : SheetEntry) : String :=
  "\x7b\n"
    ++ ind ++ "  " ++ jsonStr "name" ++ ": " ++ jsonStr e.name ++ ",\n"
    ++ ind ++ "  " ++ jsonStr "id" ++ ": " ++ jsonStr e.id ++ ",\n"
    ++ ind ++ "  " ++ jsonStr "url" ++ ": " ++ jsonStr e.url ++ "\n"
    ++ ind ++ "\x7d"

/-- `json.dumps(entries, indent=2)` for the spreadsheet listing. -/
def json_dumps_entries (l : List SheetEntry) : String :=
  match l with
  | [] => "[]"
  | _ =>
    "[\n" ++ String.intercalate ",\n" (l.map (fun e => "  " ++ dumpsEntry "  " e)) ++ "\n]"

/-- `json.dumps({key: a, 'url': b}, indent=2)` used by the two create tools;
a missing response field is `None`, serialized as `null`. -/
def json_dumps_id_url (key : String) (a b : Option String) : String :=
  "\x7b\n  " ++ jsonStr key ++ ": " ++ jsonOfOptStr a ++ ",\n  "
    ++ jsonStr "url" ++ ": " ++ jsonOfOptStr b ++ "\n\x7d"

/- ===== Remote requests and responses ===== -/

/-- `service.spreadsheets().values().get(spreadsheetId=…, range=…)`. -/
structure ValuesGetReq where
  spreadsheetId : String
  range : String
deriving DecidableEq

/-- Response to a values get; `values` is absent for an empty range. -/
structure ValuesGetResp where
  values : Option (List (List Value))
deriving DecidableEq

/-- `values().update(...)` / `values().append(...)` request: id, range, the
value input option, and the grid sent in the body. -/
structure ValuesWriteReq where
  spreadsheetId : String
  range : String
  valueInputOption : String
  values : List (List Value)
deriving DecidableEq

/-- Response to `values().update`; `updatedCells` may be absent. -/
structure UpdateResp where
  updatedCells : Option Nat
deriving DecidableEq

/-- The `updates` object inside a `values().append` response. -/
structure AppendUpdates where
  updatedCells : Option Nat
deriving DecidableEq

/-- Response to `values().append`; the `updates` field may be absent. -/
structure AppendResp where
  updates : Option AppendUpdates
deriving DecidableEq

/-- `spreadsheets().create(body={'properties': {'title': …}})`. -/
structure SpreadsheetCreateReq where
  title : String
deriving DecidableEq

/-- Response to a spreadsheet create. -/
structure SheetsCreateResp where
  spreadsheetId : Option String
  spreadsheetUrl : Option String
deriving DecidableEq

/-- The `info` object of a form create body: title and documentTitle always,
description only when set. -/
structure FormInfo where
  title : String
  documentTitle : String
  description : Option String
deriving DecidableEq

/-- `forms().create(body={'info': …})`. -/
structure FormCreateReq where
  info : FormInfo
deriving DecidableEq

/-- Response to a form create. -/
structure FormCreateResp where
  formId : Option String
  responderUri : Option String
deriving DecidableEq

/-- `service.files().list(q=…, pageSize=…, fields=…)`. -/
structure FilesListReq where
  q : String
  pageSize : Nat
  fields : String
deriving DecidableEq

/-- A file as projected by `fields="files(id, name, webViewLink)"`. -/
structure DriveFile where
  id : String
  name : String
  webViewLink : String
deriving DecidableEq

/-- Response to a files list; the `files` field may be absent. -/
structure FilesListResp where
  files : Option (List DriveFile)
deriving DecidableEq

/-- A remote request tagged with the endpoint it was sent to. -/
inductive RemoteCall where
  | valuesGet (r : ValuesGetReq)
  | valuesUpdate (r : ValuesWriteReq)
  | valuesAppend (r : ValuesWriteReq)
  | sheetsCreate (r : SpreadsheetCreateReq)
  | formsCreate (r : FormCreateReq)
  | filesList (r : FilesListReq)
deriving DecidableEq

/-- The fixed Drive query string sent by `list_spreadsheets`. -/
def spreadsheetQuery : String :=
  "mimeType=\x27application/vnd.google-apps.spreadsheet\x27"

/- ===== Tools ===== -/

/-- The `spreadsheets` list built inside `list_spreadsheets` from the
response's files. -/
def list_spreadsheets_items (files : List DriveFile) : List SheetEntry :=
  files.map (fun f => SheetEntry.mk f.name f.id f.webViewLink)

/-- `list_spreadsheets(max_results=20)`: one `files().list` call with the
spreadsheet mime-type query, pageSize `max_results` and the id/name/link field
projection; the files of the response (default `[]`) are mapped to
name/id/url entries and JSON-dumped. -/
def list_spreadsheets (filesList : FilesListReq → Except RemoteError FilesListResp)
    (max_results : Nat) : List RemoteCall × Except PyErr String :=
  let req : FilesListReq :=
    FilesListReq.mk spreadsheetQuery max_results "files(id, name, webViewLink)"
  match filesList req with
  | Except.error e => ([RemoteCall.filesList req], Except.error (PyErr.remote e))
  | Except.ok results =>
    ([RemoteCall.filesList req],
     Except.ok (json_dumps_entries (list_spreadsheets_items (results.files.getD []))))

/-- `read_sheet(spreadsheet_id, range_name="Sheet1")`: one `values().get`
call; `result.get('values', [])` is JSON-dumped. -/
def read_sheet (valuesGet : ValuesGetReq → Except RemoteError ValuesGetResp)
    (spreadsheet_id range_name : String) : List RemoteCall × Except PyErr String :=
  let req : ValuesGetReq := ValuesGetReq.mk spreadsheet_id range_name
  match valuesGet req with
  | Except.error e => ([RemoteCall.valuesGet req], Except.error (PyErr.remote e))
  | Except.ok result =>
    ([RemoteCall.valuesGet req],
     Except.ok (json_dumps_grid (result.values.getD [])))

/-- `write_sheet`: one `values().update` call with `valueInputOption='RAW'`
and the given grid as body; returns `f"Updated {result.get('updatedCells')} cells"`. -/
def write_sheet (valuesUpdate : ValuesWriteReq → Except RemoteError UpdateResp)
    (spreadsheet_id range_name : String) (values : List (List Value)) :
    List RemoteCall × Except PyErr String :=
  let req : ValuesWriteReq := ValuesWriteReq.mk spreadsheet_id range_name "RAW" values
  match valuesUpdate req with
  | Except.error e => ([RemoteCall.valuesUpdate req], Except.error (PyErr.remote e))
  | Except.ok result =>
    ([RemoteCall.valuesUpdate req],
     Except.ok ("Updated " ++ pyOptNat result.updatedCells ++ " cells"))

/-- `append_sheet`: one `values().append` call with `valueInputOption='RAW'`;
returns `f"Appended {result.get('updates').get('updatedCells')} cells"` — when
the response has no `updates` field, `result.get('updates')` is `None` and the
chained `.get` raises `AttributeError`. -/
def append_sheet (valuesAppend : ValuesWriteReq → Except RemoteError AppendResp)
    (spreadsheet_id range_name : String) (values : List (List Value)) :
    List RemoteCall × Except PyErr String :=
  let req : ValuesWriteReq := ValuesWriteReq.mk spreadsheet_id range_name "RAW" values
  match valuesAppend req with
  | Except.error e => ([RemoteCall.valuesAppend req], Except.error (PyErr.remote e))
  | Except.ok result =>
    match result.updates with
    | none => ([RemoteCall.valuesAppend req], Except.error PyErr.attributeError)
    | some u =>
      ([RemoteCall.valuesAppend req],
       Except.ok ("Appended " ++ pyOptNat u.updatedCells ++ " cells"))

/-- `create_spreadsheet(title)`: one `spreadsheets().create` call; dumps
spreadsheet_id and url from the response. -/
def create_spreadsheet (sheetsCreate : SpreadsheetCreateReq → Except RemoteError SheetsCreateResp)
    (title : String) : List RemoteCall × Except PyErr String :=
  let req : SpreadsheetCreateReq := SpreadsheetCreateReq.mk title
  match sheetsCreate req with
  | Except.error e => ([RemoteCall.sheetsCreate req], Except.error (PyErr.remote e))
  | Except.ok result =>
    ([RemoteCall.sheetsCreate req],
     Except.ok (json_dumps_id_url "spreadsheet_id" result.spreadsheetId result.spreadsheetUrl))

/-- `create_form(title, description="")`: the body's `info` carries title and
documentTitle; `description` is added only when the string is truthy
(non-empty).  One `forms().create` call; dumps form_id and responder url. -/
def create_form (formsCreate : FormCreateReq → Except RemoteError FormCreateResp)
    (title description : String) : List RemoteCall × Except PyErr String :=
  let base : FormInfo := FormInfo.mk title title none
  let info : FormInfo :=
    if description = "" then base else { base with description := some description }
  let req : FormCreateReq := FormCreateReq.mk info
  match formsCreate req with
  | Except.error e => ([RemoteCall.formsCreate req], Except.error (PyErr.remote e))
  | Except.ok result =>
    ([RemoteCall.formsCreate req],
     Except.ok (json_dumps_id_url "form_id" result.formId result.responderUri))

/-- `get_sheet_resource(spreadsheet_id, range_name="Sheet1")`: the same
`values().get` call as `read_sheet`, then the loop
`for row in values: output.append(' | '.join(str(cell) for cell in row))`
followed by `'\n'.join(output)`. -/
def get_sheet_resource (valuesGet : ValuesGetReq → Except RemoteError ValuesGetResp)
    (spreadsheet_id range_name : String) : List RemoteCall × Except PyErr String :=
  let req : ValuesGetReq := ValuesGetReq.mk spreadsheet_id range_name
  match valuesGet req with
  | Except.error e => ([RemoteCall.valuesGet req], Except.error (PyErr.remote e))
  | Except.ok result =>
    let values := result.values.getD []
    let output := values.foldl
      (fun acc row => acc ++ [String.intercalate " | " (row.map Value.pyStr)]) []
    ([RemoteCall.valuesGet req], Except.ok (String.intercalate "\n" output))

/-- Modelled from the spec: the rendering the spec prescribes for the sheet
resource — the grid as newline-separated rows with the cells of each row
joined by the literal separator " | ", each cell in its string form. -/
def specRenderGrid (g : List (List Value)) : String :=
  String.intercalate "\n" (g.map (fun row => String.intercalate " | " (row.map Value.pyStr)))

/-- A model of the external Drive `files.list` endpoint over a concrete
store: documents matching a mimeType-equality query, capped at `pageSize`,
projected to id/name/webViewLink. -/
structure DriveDoc where
  id : String
  name : String
  webViewLink : String
  mimeType : String
deriving DecidableEq

/-- Helper for reading a Drive query: strip a final quote character. -/
def stripTrailingQuote : List Char → Option (List Char)
  | [] => none
  | [c] => if c = '\x27' then some [] else none
  | c :: rest => (stripTrailingQuote rest).map (fun l => c :: l)

/-- The mime type selected by a Drive query of the shape `mimeType='…'`,
`none` for any other query. -/
def queryMimeType (q : String) : Option String :=
  match q.data with
  | 'm' :: 'i' :: 'm' :: 'e' :: 'T' :: 'y' :: 'p' :: 'e' :: '=' :: '\x27' :: rest =>
    (stripTrailingQuote rest).map (fun l => String.mk l)
  | _ => none

def driveStore (docs : List DriveDoc) (req : FilesListReq) :
    Except RemoteError FilesListResp :=
  let matching := docs.filter (fun d => queryMimeType req.q == some d.mimeType)
  Except.ok (FilesListResp.mk
    (some ((matching.take req.pageSize).map (fun d => DriveFile.mk d.id d.name d.webViewLink))))

/- ===== Concrete fixtures used by witnesses and counterexamples ===== -/

def credExpired : Cred := Cred.mk (some "tok") true (some "rt")

def credFresh : Cred := Cred.mk (some "tok") false none

def authEnv0 : AuthEnv :=
  AuthEnv.mk (fun c => Cred.mk (some "refreshed") false c.refreshToken)
    (Cred.mk (some "consented") false (some "rt2"))

def demoGrid : List (List Value) :=
  [[Value.str "a", Value.str "b"], [Value.str "c", Value.str "d"]]

def boom : RemoteError := RemoteError.mk "boom"

def okGetApi : ValuesGetReq → Except RemoteError ValuesGetResp :=
  fun _ => Except.ok (ValuesGetResp.mk (some demoGrid))

def emptyGetApi : ValuesGetReq → Except RemoteError ValuesGetResp :=
  fun _ => Except.ok (ValuesGetResp.mk none)

def failGetApi : ValuesGetReq → Except RemoteError ValuesGetResp :=
  fun _ => Except.error boom

def okUpdateApi : ValuesWriteReq → Except RemoteError UpdateResp :=
  fun _ => Except.ok (UpdateResp.mk (some 4))

def noCellsUpdateApi : ValuesWriteReq → Except RemoteError UpdateResp :=
  fun _ => Except.ok (UpdateResp.mk none)

def failUpdateApi : ValuesWriteReq → Except RemoteError UpdateResp :=
  fun _ => Except.error boom

def okAppendApi : ValuesWriteReq → Except RemoteError AppendResp :=
  fun _ => Except.ok (AppendResp.mk (some (AppendUpdates.mk (some 4))))

def noUpdatesAppendApi : ValuesWriteReq → Except RemoteError AppendResp :=
  fun _ => Except.ok (AppendResp.mk none)

def failAppendApi : ValuesWriteReq → Except RemoteError AppendResp :=
  fun _ => Except.error boom

def failListApi : FilesListReq → Except RemoteError FilesListResp :=
  fun _ => Except.error boom

def failSheetsCreateApi : SpreadsheetCreateReq → Except RemoteError SheetsCreateResp :=
  fun _ => Except.error boom

def okFormsApi : FormCreateReq → Except RemoteError FormCreateResp :=
  fun _ => Except.ok (FormCreateResp.mk (some "fid") (some "furl"))

def failFormsApi : FormCreateReq → Except RemoteError FormCreateResp :=
  fun _ => Except.error boom

/-- A Drive store holding five spreadsheets (and one other document). -/
def demoDocs : List DriveDoc :=
  [DriveDoc.mk "id1" "Budget" "url1" "application/vnd.google-apps.spreadsheet",
   DriveDoc.mk "id2" "Roster" "url2" "application/vnd.google-apps.spreadsheet",
   DriveDoc.mk "id3" "Notes" "url3" "application/vnd.google-apps.document",
   DriveDoc.mk "id4" "Expenses" "url4" "application/vnd.google-apps.spreadsheet",
   DriveDoc.mk "id5" "Survey" "url5" "application/vnd.google-apps.spreadsheet",
   DriveDoc.mk "id6" "Plan" "url6" "application/vnd.google-apps.spreadsheet"]

/- ===== Theorems ===== -/

/-- Claim C1: with a persisted credential whose access token is expired and
whose refresh token is present, `get_credentials` performs exactly one refresh
exchange and persists the refreshed credential to the token file before
returning it — the event trace is exactly one refresh call followed by one
persist of the refreshed credential, and the token file afterwards stores
that refreshed credential. -/
theorem c1_expired_refresh_once_and_persist (env : AuthEnv) (c : Cred)
    (hexp : c.expired = true) (href : c.refreshToken.isSome = true) :
    get_credentials env (TokenFile.stored c) =
      Except.ok (env.refreshFn c, TokenFile.stored (env.refreshFn c),
        [CredEvent.refreshCall, CredEvent.persist (env.refreshFn c)]) := by
  simp [get_credentials, Cred.valid, hexp, href]

theorem c1_witness :
    get_credentials authEnv0 (TokenFile.stored credExpired) =
      Except.ok (authEnv0.refreshFn credExpired,
        TokenFile.stored (authEnv0.refreshFn credExpired),
        [CredEvent.refreshCall, CredEvent.persist (authEnv0.refreshFn credExpired)]) :=
  c1_expired_refresh_once_and_persist authEnv0 credExpired rfl rfl

/-- Claim C2: with a persisted credential that is valid (access token present
and unexpired), `get_credentials` returns it unchanged with an empty event
trace — no refresh exchange, no consent flow, no write to the token file. -/
theorem c2_valid_returned_unchanged (env : AuthEnv) (c : Cred)
    (hv : c.valid = true) :
    get_credentials env (TokenFile.stored c) =
      Except.ok (c, TokenFile.stored c, []) := by
  simp [get_credentials, hv]

theorem c2_witness :
    get_credentials authEnv0 (TokenFile.stored credFresh) =
      Except.ok (credFresh, TokenFile.stored credFresh, []) :=
  c2_valid_returned_unchanged authEnv0 credFresh rfl

/-- Claim C3, counterexample: on a token file whose contents cannot be
deserialized, `get_credentials` does not behave as if no persisted credential
exists — it surfaces the deserialization failure as an error, unlike the
absent-file case, which regenerates via the consent flow. -/
theorem c3_counterexample :
    get_credentials authEnv0 TokenFile.corrupted = Except.error PyErr.unpicklingError ∧
    get_credentials authEnv0 TokenFile.corrupted ≠ get_credentials authEnv0 TokenFile.absent := by
  refine ⟨rfl, ?_⟩
  intro h
  simp [get_credentials] at h

/-- Claim C3, amended: a persisted credential file whose contents cannot be
deserialized makes `get_credentials` propagate the deserialization failure as
a fatal error (`pickle.load` is not guarded); it does not proceed to
regenerate a credential. -/
theorem c3_amended_corrupted_raises (env : AuthEnv) :
    get_credentials env TokenFile.corrupted = Except.error PyErr.unpicklingError :=
  rfl

/-- Claim C4: for every grid, `write_sheet` and `append_sheet` each send the
grid verbatim with `valueInputOption='RAW'` in exactly one remote call, and
each returns a text reporting the cell count taken from the remote
response. -/
theorem c4_write_append_raw_one_call
    (vu : ValuesWriteReq → Except RemoteError UpdateResp)
    (va : ValuesWriteReq → Except RemoteError AppendResp)
    (sid rng : String) (vals : List (List Value))
    (ur : UpdateResp) (n : Nat) (ar : AppendResp) (u : AppendUpdates) (m : Nat)
    (hu : vu (ValuesWriteReq.mk sid rng "RAW" vals) = Except.ok ur)
    (hun : ur.updatedCells = some n)
    (ha : va (ValuesWriteReq.mk sid rng "RAW" vals) = Except.ok ar)
    (hau : ar.updates = some u)
    (hum : u.updatedCells = some m) :
    write_sheet vu sid rng vals =
      ([RemoteCall.valuesUpdate (ValuesWriteReq.mk sid rng "RAW" vals)],
       Except.ok ("Updated " ++ toString n ++ " cells")) ∧
    append_sheet va sid rng vals =
      ([RemoteCall.valuesAppend (ValuesWriteReq.mk sid rng "RAW" vals)],
       Except.ok ("Appended " ++ toString m ++ " cells")) := by
  constructor
  · simp [write_sheet, hu, hun, pyOptNat]
  · simp [append_sheet, ha, hau, hum, pyOptNat]

theorem c4_witness :
    write_sheet okUpdateApi "abc123" "Sheet1!A1:B2" demoGrid =
      ([RemoteCall.valuesUpdate (ValuesWriteReq.mk "abc123" "Sheet1!A1:B2" "RAW" demoGrid)],
       Except.ok ("Updated " ++ toString 4 ++ " cells")) ∧
    append_sheet okAppendApi "abc123" "Sheet1!A1:B2" demoGrid =
      ([RemoteCall.valuesAppend (ValuesWriteReq.mk "abc123" "Sheet1!A1:B2" "RAW" demoGrid)],
       Except.ok ("Appended " ++ toString 4 ++ " cells")) :=
  c4_write_append_raw_one_call okUpdateApi okAppendApi "abc123" "Sheet1!A1:B2" demoGrid
    (UpdateResp.mk (some 4)) 4 (AppendResp.mk (some (AppendUpdates.mk (some 4))))
    (AppendUpdates.mk (some 4)) 4 rfl rfl rfl rfl rfl

theorem foldl_append_singleton {α β : Type} (f : α → β) (g : List α) (acc : List β) :
    List.foldl (fun a r => a ++ [f r]) acc g = acc ++ g.map f := by
  induction g generalizing acc with
  | nil => simp
  | cons x xs ih => simp [List.foldl, ih]

/-- Claim C5: `get_sheet_resource` issues the same remote fetch as
`read_sheet` on the same arguments, and on a successful fetch its payload is
the grid rendered per the spec — newline-separated rows, cells joined by the
literal " | " in their string form — rather than the JSON text
`read_sheet` produces. -/
theorem c5_resource_same_fetch_spec_render
    (vg : ValuesGetReq → Except RemoteError ValuesGetResp) (sid rng : String) :
    (get_sheet_resource vg sid rng).1 = (read_sheet vg sid rng).1 ∧
    (∀ resp : ValuesGetResp, vg (ValuesGetReq.mk sid rng) = Except.ok resp →
      (get_sheet_resource vg sid rng).2 =
        Except.ok (specRenderGrid (resp.values.getD []))) := by
  constructor
  · cases h : vg (ValuesGetReq.mk sid rng) <;>
      simp [get_sheet_resource, read_sheet, h]
  · intro resp h
    simp only [get_sheet_resource, h]
    rw [foldl_append_singleton (fun row => String.intercalate " | " (List.map Value.pyStr row))]
    simp [specRenderGrid]

theorem c5_witness :
    (get_sheet_resource okGetApi "abc" "Sheet1").1 = (read_sheet okGetApi "abc" "Sheet1").1 ∧
    (get_sheet_resource okGetApi "abc" "Sheet1").2 = Except.ok (specRenderGrid demoGrid) :=
  ⟨(c5_resource_same_fetch_spec_render okGetApi "abc" "Sheet1").1,
   (c5_resource_same_fetch_spec_render okGetApi "abc" "Sheet1").2
     (ValuesGetResp.mk (some demoGrid)) rfl⟩

/-- Claim C9: when the fetch response has no `values` field, `read_sheet`
returns the JSON text of an empty list and `get_sheet_resource` returns the
empty string; neither fails. -/
theorem c9_missing_values_defaults
    (vg : ValuesGetReq → Except RemoteError ValuesGetResp) (sid rng : String)
    (resp : ValuesGetResp)
    (h : vg (ValuesGetReq.mk sid rng) = Except.ok resp) (hv : resp.values = none) :
    read_sheet vg sid rng =
      ([RemoteCall.valuesGet (ValuesGetReq.mk sid rng)], Except.ok "[]") ∧
    get_sheet_resource vg sid rng =
      ([RemoteCall.valuesGet (ValuesGetReq.mk sid rng)], Except.ok "") := by
  constructor
  · simp [read_sheet, h, hv, json_dumps_grid]
  · simp [get_sheet_resource, h, hv, String.intercalate]

theorem c9_witness :
    read_sheet emptyGetApi "s" "r" =
      ([RemoteCall.valuesGet (ValuesGetReq.mk "s" "r")], Except.ok "[]") ∧
    get_sheet_resource emptyGetApi "s" "r" =
      ([RemoteCall.valuesGet (ValuesGetReq.mk "s" "r")], Except.ok "") :=
  c9_missing_values_defaults emptyGetApi "s" "r" (ValuesGetResp.mk none) rfl rfl

/-- Claim C10: a `values().append` response without the `updates` field makes
`append_sheet` raise (`AttributeError` from the unguarded chained `.get`),
while `write_sheet` returns a text result for every response, printing a
missing `updatedCells` as `None` instead of failing. -/
theorem c10_append_unguarded_write_total
    (va : ValuesWriteReq → Except RemoteError AppendResp)
    (vu : ValuesWriteReq → Except RemoteError UpdateResp)
    (sid rng : String) (vals : List (List Value))
    (ar : AppendResp) (ur : UpdateResp)
    (ha : va (ValuesWriteReq.mk sid rng "RAW" vals) = Except.ok ar)
    (hau : ar.updates = none)
    (hu : vu (ValuesWriteReq.mk sid rng "RAW" vals) = Except.ok ur)
    (hun : ur.updatedCells = none) :
    append_sheet va sid rng vals =
      ([RemoteCall.valuesAppend (ValuesWriteReq.mk sid rng "RAW" vals)],
       Except.error PyErr.attributeError) ∧
    write_sheet vu sid rng vals =
      ([RemoteCall.valuesUpdate (ValuesWriteReq.mk sid rng "RAW" vals)],
       Except.ok "Updated None cells") := by
  constructor
  · simp [append_sheet, ha, hau]
  · simp [write_sheet, hu, hun, pyOptNat]

theorem c10_witness :
    append_sheet noUpdatesAppendApi "s" "r" [] =
      ([RemoteCall.valuesAppend (ValuesWriteReq.mk "s" "r" "RAW" [])],
       Except.error PyErr.attributeError) ∧
    write_sheet noCellsUpdateApi "s" "r" [] =
      ([RemoteCall.valuesUpdate (ValuesWriteReq.mk "s" "r" "RAW" [])],
       Except.ok "Updated None cells") :=
  c10_append_unguarded_write_total noUpdatesAppendApi noCellsUpdateApi "s" "r" []
    (AppendResp.mk none) (UpdateResp.mk none) rfl rfl rfl rfl

/-- Claim C6: every tool issues exactly one remote call per invocation (so at
most one — no internal retry), and when that remote call fails, the failure
propagates as a failed call, never as a partial or degraded text result.
Stated for each of the six tools and the sheet resource: the request trace
always has length one, and a remote error `e` yields the outcome
`Except.error (PyErr.remote e)`. -/
theorem c6_remote_failure_propagates :
    (∀ vg sid rng, (read_sheet vg sid rng).1.length = 1) ∧
    (∀ vg sid rng e, vg (ValuesGetReq.mk sid rng) = Except.error e →
      read_sheet vg sid rng =
        ([RemoteCall.valuesGet (ValuesGetReq.mk sid rng)],
         Except.error (PyErr.remote e))) ∧
    (∀ vu sid rng vals, (write_sheet vu sid rng vals).1.length = 1) ∧
    (∀ vu sid rng vals e, vu (ValuesWriteReq.mk sid rng "RAW" vals) = Except.error e →
      write_sheet vu sid rng vals =
        ([RemoteCall.valuesUpdate (ValuesWriteReq.mk sid rng "RAW" vals)],
         Except.error (PyErr.remote e))) ∧
    (∀ va sid rng vals, (append_sheet va sid rng vals).1.length = 1) ∧
    (∀ va sid rng vals e, va (ValuesWriteReq.mk sid rng "RAW" vals) = Except.error e →
      append_sheet va sid rng vals =
        ([RemoteCall.valuesAppend (ValuesWriteReq.mk sid rng "RAW" vals)],
         Except.error (PyErr.remote e))) ∧
    (∀ fl mr, (list_spreadsheets fl mr).1.length = 1) ∧
    (∀ fl mr e,
      fl (FilesListReq.mk spreadsheetQuery mr "files(id, name, webViewLink)") = Except.error e →
      list_spreadsheets fl mr =
        ([RemoteCall.filesList (FilesListReq.mk spreadsheetQuery mr "files(id, name, webViewLink)")],
         Except.error (PyErr.remote e))) ∧
    (∀ sc t, (create_spreadsheet sc t).1.length = 1) ∧
    (∀ sc t e, sc (SpreadsheetCreateReq.mk t) = Except.error e →
      create_spreadsheet sc t =
        ([RemoteCall.sheetsCreate (SpreadsheetCreateReq.mk t)],
         Except.error (PyErr.remote e))) ∧
    (∀ fc t d, (create_form fc t d).1.length = 1) ∧
    (∀ fc t d e,
      fc (FormCreateReq.mk (FormInfo.mk t t (if d = "" then none else some d))) = Except.error e →
      create_form fc t d =
        ([RemoteCall.formsCreate (FormCreateReq.mk
            (FormInfo.mk t t (if d = "" then none else some d)))],
         Except.error (PyErr.remote e))) ∧
    (∀ vg sid rng, (get_sheet_resource vg sid rng).1.length = 1) ∧
    (∀ vg sid rng e, vg (ValuesGetReq.mk sid rng) = Except.error e →
      get_sheet_resource vg sid rng =
        ([RemoteCall.valuesGet (ValuesGetReq.mk sid rng)],
         Except.error (PyErr.remote e))) := by
  refine ⟨?_, ?_, ?_, ?_, ?_, ?_, ?_, ?_, ?_, ?_, ?_, ?_, ?_, ?_⟩
  · intro vg sid rng
    cases h : vg (ValuesGetReq.mk sid rng) <;> simp [read_sheet, h]
  · intro vg sid rng e h
    simp [read_sheet, h]
  · intro vu sid rng vals
    cases h : vu (ValuesWriteReq.mk sid rng "RAW" vals) <;> simp [write_sheet, h]
  · intro vu sid rng vals e h
    simp [write_sheet, h]
  · intro va sid rng vals
    cases h : va (ValuesWriteReq.mk sid rng "RAW" vals) with
    | error e => simp [append_sheet, h]
    | ok a => cases hu : a.updates <;> simp [append_sheet, h, hu]
  · intro va sid rng vals e h
    simp [append_sheet, h]
  · intro fl mr
    cases h : fl (FilesListReq.mk spreadsheetQuery mr "files(id, name, webViewLink)") <;>
      simp [list_spreadsheets, h]
  · intro fl mr e h
    simp [list_spreadsheets, h]
  · intro sc t
    cases h : sc (SpreadsheetCreateReq.mk t) <;> simp [create_spreadsheet, h]
  · intro sc t e h
    simp [create_spreadsheet, h]
  · intro fc t d
    by_cases hd : d = ""
    · cases h : fc (FormCreateReq.mk (FormInfo.mk t t none)) <;>
        simp [create_form, hd, h]
    · cases h : fc (FormCreateReq.mk (FormInfo.mk t t (some d))) <;>
        simp [create_form, hd, h]
  · intro fc t d e h
    by_cases hd : d = ""
    · rw [if_pos hd] at h
      simp [create_form, hd, h]
    · rw [if_neg hd] at h
      simp [create_form, hd, h]
  · intro vg sid rng
    cases h : vg (ValuesGetReq.mk sid rng) <;> simp [get_sheet_resource, h]
  · intro vg sid rng e h
    simp [get_sheet_resource, h]

theorem c6_witness :
    read_sheet failGetApi "s" "r" =
      ([RemoteCall.valuesGet (ValuesGetReq.mk "s" "r")],
       Except.error (PyErr.remote boom)) ∧
    write_sheet failUpdateApi "s" "r" [] =
      ([RemoteCall.valuesUpdate (ValuesWriteReq.mk "s" "r" "RAW" [])],
       Except.error (PyErr.remote boom)) ∧
    append_sheet failAppendApi "s" "r" [] =
      ([RemoteCall.valuesAppend (ValuesWriteReq.mk "s" "r" "RAW" [])],
       Except.error (PyErr.remote boom)) ∧
    list_spreadsheets failListApi 2 =
      ([RemoteCall.filesList (FilesListReq.mk spreadsheetQuery 2 "files(id, name, webViewLink)")],
       Except.error (PyErr.remote boom)) ∧
    create_spreadsheet failSheetsCreateApi "T" =
      ([RemoteCall.sheetsCreate (SpreadsheetCreateReq.mk "T")],
       Except.error (PyErr.remote boom)) ∧
    create_form failFormsApi "T" "" =
      ([RemoteCall.formsCreate (FormCreateReq.mk
          (FormInfo.mk "T" "T" (if "" = "" then none else some "")))],
       Except.error (PyErr.remote boom)) ∧
    get_sheet_resource failGetApi "s" "r" =
      ([RemoteCall.valuesGet (ValuesGetReq.mk "s" "r")],
       Except.error (PyErr.remote boom)) := by
  obtain ⟨-, h2, -, h4, -, h6, -, h8, -, h10, -, h12, -, h14⟩ := c6_remote_failure_propagates
  exact ⟨h2 _ _ _ _ rfl, h4 _ _ _ _ _ rfl, h6 _ _ _ _ _ rfl, h8 _ _ _ rfl,
    h10 _ _ _ rfl, h12 _ _ _ _ rfl, h14 _ _ _ _ rfl⟩

/-- Claim C7: against any Drive store, `list_spreadsheets` issues one
`files().list` call with the spreadsheet mime-type query and pageSize
`max_results`; the resulting entries number at most `max_results` and each
carries the name, id, and url of a spreadsheet-kind document of the store.
In particular, against a store containing five spreadsheets,
`list_spreadsheets` with `max_results = 2` returns exactly two entries with
non-empty name, id, and url. -/
theorem c7_list_spreadsheets_cap_and_kind (docs : List DriveDoc) (mr : Nat) :
    (∃ items : List SheetEntry,
      list_spreadsheets (driveStore docs) mr =
        ([RemoteCall.filesList (FilesListReq.mk spreadsheetQuery mr "files(id, name, webViewLink)")],
         Except.ok (json_dumps_entries items)) ∧
      items.length ≤ mr ∧
      (∀ it ∈ items, ∃ d ∈ docs,
        d.mimeType = "application/vnd.google-apps.spreadsheet" ∧
        it = SheetEntry.mk d.name d.id d.webViewLink)) ∧
    (∃ items2 : List SheetEntry,
      list_spreadsheets (driveStore demoDocs) 2 =
        ([RemoteCall.filesList (FilesListReq.mk spreadsheetQuery 2 "files(id, name, webViewLink)")],
         Except.ok (json_dumps_entries items2)) ∧
      items2.length = 2 ∧
      (∀ it ∈ items2, it.name ≠ "" ∧ it.id ≠ "" ∧ it.url ≠ "")) := by
  constructor
  · refine ⟨list_spreadsheets_items
        (((docs.filter
            (fun (d : DriveDoc) => queryMimeType spreadsheetQuery == some d.mimeType)).take
          mr).map (fun (d : DriveDoc) => DriveFile.mk d.id d.name d.webViewLink)),
        rfl, ?_, ?_⟩
    · simp only [list_spreadsheets_items, List.length_map, List.length_take]
      exact Nat.min_le_left _ _
    · intro it hit
      simp only [list_spreadsheets_items, List.mem_map] at hit
      obtain ⟨f, ⟨d, hd, hfd⟩, hef⟩ := hit
      have hd1 : d ∈ docs.filter
          (fun d => queryMimeType spreadsheetQuery == some d.mimeType) :=
        List.take_subset _ _ hd
      rw [List.mem_filter] at hd1
      obtain ⟨hdocs, hq⟩ := hd1
      have hq2 : queryMimeType spreadsheetQuery = some d.mimeType := eq_of_beq hq
      have hq3 : queryMimeType spreadsheetQuery =
          some "application/vnd.google-apps.spreadsheet" := rfl
      rw [hq3] at hq2
      refine ⟨d, hdocs, (Option.some.inj hq2).symm, ?_⟩
      rw [← hef, ← hfd]
  · exact ⟨[SheetEntry.mk "Budget" "id1" "url1", SheetEntry.mk "Roster" "id2" "url2"],
      rfl, rfl, by decide⟩

theorem c7_witness :
    ∃ items : List SheetEntry,
      list_spreadsheets (driveStore demoDocs) 2 =
        ([RemoteCall.filesList (FilesListReq.mk spreadsheetQuery 2 "files(id, name, webViewLink)")],
         Except.ok (json_dumps_entries items)) ∧
      items.length ≤ 2 :=
  ((c7_list_spreadsheets_cap_and_kind demoDocs 2).1).imp (fun _ h => ⟨h.1, h.2.1⟩)

/-- Claim C8: `create_form` sends one `forms().create` request in which the
`info` body carries the description exactly when it is non-empty; with an
empty description (the default), the request carries only the title
fields. -/
theorem c8_create_form_description_iff
    (fc : FormCreateReq → Except RemoteError FormCreateResp)
    (title description : String) :
    (create_form fc title description).1 =
      [RemoteCall.formsCreate (FormCreateReq.mk
        (FormInfo.mk title title (if description = "" then none else some description)))] ∧
    ((create_form fc title description).1 =
        [RemoteCall.formsCreate (FormCreateReq.mk (FormInfo.mk title title none))] ↔
      description = "") := by
  by_cases hd : description = ""
  · cases h : fc (FormCreateReq.mk (FormInfo.mk title title none)) <;>
      simp [create_form, hd, h]
  · cases h : fc (FormCreateReq.mk (FormInfo.mk title title (some description))) <;>
      simp [create_form, hd, h]

end GSheets
